import Mathlib

/-!
Shallow embedding of the data-quality checker (Go sources
`internal/checker/checker.go` and `internal/db/db.go`).

Each Go check is a function `(dataPath, params...) → (bool, error)` that
  1. validates the data path (`validatePathExists`),
  2. runs one counting SQL query against DuckDB over the file,
  3. derives `result := errorCount == 0`,
  4. appends a record to the SQLite log (`DBConnector.Log`) and returns.

We model a readable file as a `Table` (ordered column names plus rows of
cells), the filesystem as a function from paths to `FileState`, and the
SQLite log store as a `DB` value.  SQL three-valued logic is reflected in
the cell-level predicates: a comparison involving NULL never selects a
row.  String literals interpolated into `IN (...)` lists are compared by
value.  The DuckDB engine itself is an external collaborator; its query
semantics for the embedded checks (GROUP BY / HAVING, WHERE counting,
LEFT JOIN ... IS NULL, SELECT DISTINCT, LIMIT 0 projection) are modelled
directly on lists.
-/

/-- A non-null SQL cell value: a string or an (exact) numeric value.
Numeric cells model DuckDB numeric columns; `Rat` stands in for the
engine's numerics (the checks only compare values, never round). -/
inductive Value where
  | str : String → Value
  | num : Rat → Value
deriving DecidableEq, Repr

/-- A cell of a table: `none` is SQL NULL. -/
abbrev Cell := Option Value

/-- A file-backed relation: named columns and rows of cells.
Rows are positional; `cols.length` is the arity. -/
structure Table where
  cols : List String
  rows : List (List Cell)
deriving DecidableEq, Repr

/-- What the engine sees at a path: absent (os.Stat fails), present but
unparseable by DuckDB, or a readable table. -/
inductive FileState where
  | missing
  | unreadable
  | table (t : Table)
deriving DecidableEq, Repr

/-- The filesystem, as the checker observes it. -/
abbrev FS := String → FileState

/-- `SELECT col FROM file` — the projection of a named column, or `none`
when the column does not exist (the query errors). Rows shorter than the
column index read as NULL. -/
def projectColumn (t : Table) (c : String) : Option (List Cell) :=
  (List.findIdx? (fun x => x = c) t.cols).map
    (fun i => t.rows.map (fun r => r.getD i none))

/-- Values logged in `additional_params` (Go `map[string]interface{}`
serialized to JSON). -/
inductive ParamValue where
  | str : String → ParamValue
  | int : Int → ParamValue
  | num : Rat → ParamValue
  | strList : List String → ParamValue
deriving DecidableEq, Repr

/-- A row of the SQLite `log` table: auto-increment id, append-time
timestamp (modelled as an abstract clock reading), check type, boolean
result, and serialized parameters. -/
structure LogEntry where
  id : Nat
  timestamp : Nat
  checkType : String
  result : Bool
  params : List (String × ParamValue)
deriving DecidableEq, Repr

/-- The SQLite log store.  `nextId` is the AUTOINCREMENT counter,
`failing` models a store on which INSERT/DELETE statements fail (the
source of `LogWriteError`). -/
structure DB where
  nextId : Nat
  entries : List LogEntry
  failing : Bool
deriving DecidableEq, Repr

/-- The successful effect of one INSERT into the log table: a record
with the next AUTOINCREMENT id and the append-time timestamp. -/
def DB.append (db : DB) (now : Nat) (checkType : String) (result : Bool)
    (params : List (String × ParamValue)) : DB :=
  { nextId := db.nextId + 1,
    entries := db.entries ++ [⟨db.nextId, now, checkType, result, params⟩],
    failing := db.failing }

/-- `DBConnector.Log`: INSERT one record with a fresh timestamp.  On a
store failure the statement fails and the table is unchanged. -/
def DB.log (db : DB) (now : Nat) (checkType : String) (result : Bool)
    (params : List (String × ParamValue)) : Except Unit DB :=
  if db.failing then .error ()
  else .ok (db.append now checkType result params)

/-- `DBConnector.ClearLogs`: DELETE FROM log (the AUTOINCREMENT counter
is not reset). -/
def DB.clearLogs (db : DB) : Except Unit DB :=
  if db.failing then .error ()
  else .ok { nextId := db.nextId, entries := [], failing := db.failing }

/-- The error taxonomy of a check call (Go returns these as wrapped
`error` values alongside the boolean). -/
inductive CheckError where
  | notFound (path : String)
  | unreadableFile (path : String)
  | queryError
  | logWriteError
deriving DecidableEq, Repr

/-- The Go return shape `(bool, error)` together with the log store the
call leaves behind. -/
abbrev CheckResult := Bool × Option CheckError × DB

/-- `validatePathExists` followed by the body: a missing path returns
`(false, NotFoundError)`, an unparseable one `(false, UnreadableError)`,
both without touching the log. -/
def withTable (fs : FS) (p : String) (db : DB) (k : Table → CheckResult) : CheckResult :=
  match fs p with
  | .missing => (false, some (.notFound p), db)
  | .unreadable => (false, some (.unreadableFile p), db)
  | .table t => k t

/-- The common tail of every check: log the computed result; if the
append fails, return the result together with `LogWriteError`. -/
def logAndReturn (db : DB) (now : Nat) (checkType : String) (result : Bool)
    (params : List (String × ParamValue)) : CheckResult :=
  match db.log now checkType result params with
  | .error _ => (result, some .logWriteError, db)
  | .ok db' => (result, none, db')

/-- `SELECT COUNT(*) FROM (SELECT c FROM t GROUP BY c HAVING COUNT(*) > 1)`:
the number of groups (distinct cell values, NULLs grouping together)
that occur more than once. -/
def duplicateGroupCount (cells : List Cell) : Nat :=
  (cells.dedup.filter (fun v => 1 < cells.countP (fun x => decide (x = v)))).length

/-- `IsColumnUnique` (checker.go): passes iff no value of the column is
duplicated; logs the count of duplicated groups as `error_count`. -/
def IsColumnUnique (fs : FS) (now : Nat) (db : DB)
    (dataPath uniqueColumn : String) : CheckResult :=
  withTable fs dataPath db (fun t =>
    match projectColumn t uniqueColumn with
    | none => (false, some .queryError, db)
    | some cells =>
      let errorCount := duplicateGroupCount cells
      let result := decide (errorCount = 0)
      logAndReturn db now "is_column_unique" result
        [("column", .str uniqueColumn), ("data_path", .str dataPath),
         ("error_count", .int errorCount)])

/-- `IsColumnNotNull` (checker.go): counts rows `WHERE col IS NULL`. -/
def IsColumnNotNull (fs : FS) (now : Nat) (db : DB)
    (dataPath notNullColumn : String) : CheckResult :=
  withTable fs dataPath db (fun t =>
    match projectColumn t notNullColumn with
    | none => (false, some .queryError, db)
    | some cells =>
      let errorCount := (cells.filter (fun c => c.isNone)).length
      let result := decide (errorCount = 0)
      logAndReturn db now "is_column_not_null" result
        [("column", .str notNullColumn), ("data_path", .str dataPath),
         ("error_count", .int errorCount)])

/-- SQL `cell IN ('v1', ..., 'vn')` for the quoted string literals the
checker interpolates: NULL IN (...) is NULL and never selects a row;
a non-null cell is selected iff it equals one of the literals. -/
def cellInSet (c : Cell) (vals : List String) : Bool :=
  match c with
  | none => false
  | some v => vals.any (fun s => v = .str s)

/-- The rows counted by `IsColumnEnum` / `AreDistinctValuesInSet`:
`WHERE col NOT IN (vals) AND col IS NOT NULL`. -/
def enumViolations (cells : List Cell) (vals : List String) : List Cell :=
  cells.filter (fun c => c.isSome && !cellInSet c vals)

/-- `IsColumnEnum` (checker.go): counts non-null rows whose value is
outside the allowed list. -/
def IsColumnEnum (fs : FS) (now : Nat) (db : DB)
    (dataPath enumColumn : String) (enumValues : List String) : CheckResult :=
  withTable fs dataPath db (fun t =>
    match projectColumn t enumColumn with
    | none => (false, some .queryError, db)
    | some cells =>
      let errorCount := (enumViolations cells enumValues).length
      let result := decide (errorCount = 0)
      logAndReturn db now "is_column_enum" result
        [("column", .str enumColumn), ("enum_values", .strList enumValues),
         ("data_path", .str dataPath), ("error_count", .int errorCount)])

/-- `AreDistinctValuesInSet` (checker.go): same WHERE clause as
`IsColumnEnum` but counts `SELECT DISTINCT` values instead of rows. -/
def AreDistinctValuesInSet (fs : FS) (now : Nat) (db : DB)
    (dataPath columnName : String) (allowedValues : List String) : CheckResult :=
  withTable fs dataPath db (fun t =>
    match projectColumn t columnName with
    | none => (false, some .queryError, db)
    | some cells =>
      let errorCount := (enumViolations cells allowedValues).dedup.length
      let result := decide (errorCount = 0)
      logAndReturn db now "are_distinct_values_in_set" result
        [("column", .str columnName), ("allowed", .strList allowedValues),
         ("data_path", .str dataPath), ("error_count", .int errorCount)])

/-- `IsColumnNotInSet` (checker.go): counts rows `WHERE col IN (blacklist)`;
by SQL three-valued logic a NULL cell is never selected. -/
def IsColumnNotInSet (fs : FS) (now : Nat) (db : DB)
    (dataPath columnName : String) (blacklistedValues : List String) : CheckResult :=
  withTable fs dataPath db (fun t =>
    match projectColumn t columnName with
    | none => (false, some .queryError, db)
    | some cells =>
      let errorCount := (cells.filter (fun c => cellInSet c blacklistedValues)).length
      let result := decide (errorCount = 0)
      logAndReturn db now "is_column_not_in_set" result
        [("column", .str columnName), ("blacklist", .strList blacklistedValues),
         ("data_path", .str dataPath), ("error_count", .int errorCount)])

/-- `IsColumnInData` (checker.go): `SELECT col FROM file LIMIT 0`
succeeds iff the column can be projected; a failed projection is the
`false` outcome, not an error, and both outcomes are logged. -/
def IsColumnInData (fs : FS) (now : Nat) (db : DB)
    (dataPath columnName : String) : CheckResult :=
  withTable fs dataPath db (fun t =>
    let result := (projectColumn t columnName).isSome
    logAndReturn db now "is_column_in_data" result
      [("column", .str columnName), ("data_path", .str dataPath)])

/-- One row's contribution to `WHERE col < min OR col > max` under SQL
three-valued logic: a NULL cell yields NULL (not selected); a numeric
cell is selected iff strictly outside the closed interval; a string cell
makes DuckDB attempt a cast of non-numeric content, which errors the
query (`none`). -/
def betweenSelected (mn mx : Rat) (c : Cell) : Option Bool :=
  match c with
  | none => some false
  | some (.num q) => some (decide (q < mn) || decide (mx < q))
  | some (.str _) => none

/-- The `COUNT(*)` of the between query: the number of selected rows,
or `none` when the comparison errors on some row. -/
def betweenErrorCount (mn mx : Rat) : List Cell → Option Nat
  | [] => some 0
  | c :: rest => do
    let b ← betweenSelected mn mx c
    let n ← betweenErrorCount mn mx rest
    pure (if b then n + 1 else n)

/-- `IsColumnBetween` (checker.go): counts rows
`WHERE col < min OR col > max` — the bounds are inclusive. -/
def IsColumnBetween (fs : FS) (now : Nat) (db : DB)
    (dataPath columnName : String) (mn mx : Rat) : CheckResult :=
  withTable fs dataPath db (fun t =>
    match projectColumn t columnName with
    | none => (false, some .queryError, db)
    | some cells =>
      match betweenErrorCount mn mx cells with
      | none => (false, some .queryError, db)
      | some errorCount =>
        let result := decide (errorCount = 0)
        logAndReturn db now "is_column_between" result
          [("column", .str columnName), ("min", .num mn), ("max", .num mx),
           ("data_path", .str dataPath), ("error_count", .int errorCount)])

/-- The positions of the join-key columns in a table, or `none` when a
key column is absent (the join query errors). -/
def keyIdxs (t : Table) (joinKeys : List String) : Option (List Nat) :=
  joinKeys.mapM (fun k => List.findIdx? (fun x => x = k) t.cols)

/-- SQL `a = b` as a join condition: true iff both sides are non-null
and equal (a NULL on either side makes the equality NULL, not true). -/
def cellsMatch (a b : Cell) : Bool :=
  match a, b with
  | some x, some y => decide (x = y)
  | _, _ => false

/-- `ON l.k1 = r.k1 AND ... AND l.kn = r.kn` over the key positions. -/
def rowMatches (li ri : List Nat) (lrow rrow : List Cell) : Bool :=
  (li.zip ri).all (fun pr => cellsMatch (lrow.getD pr.1 none) (rrow.getD pr.2 none))

/-- `SELECT COUNT(*) FROM (SELECT l.* FROM data l LEFT JOIN ref r ON ...
WHERE r.k1 IS NULL AND ...)`: the number of left rows with no matching
right row.  An empty key list produces an empty ON/WHERE clause, a SQL
syntax error (`none`); so does a key column missing from either side. -/
def refErrorCount (l r : Table) (joinKeys : List String) : Option Nat :=
  if joinKeys.isEmpty then none
  else match keyIdxs l joinKeys, keyIdxs r joinKeys with
  | some li, some ri =>
    some (l.rows.filter (fun lrow =>
      !(r.rows.any (fun rrow => rowMatches li ri lrow rrow)))).length
  | _, _ => none

/-- `AreTablesReferentialIntegral` (checker.go): validates both paths,
then counts data rows whose join-key tuple matches no reference row. -/
def AreTablesReferentialIntegral (fs : FS) (now : Nat) (db : DB)
    (dataPath referencePath : String) (joinKeys : List String) : CheckResult :=
  withTable fs dataPath db (fun l =>
    withTable fs referencePath db (fun r =>
      match refErrorCount l r joinKeys with
      | none => (false, some .queryError, db)
      | some errorCount =>
        let result := decide (errorCount = 0)
        logAndReturn db now "are_tables_referential_integral" result
          [("join_keys", .strList joinKeys), ("data_path", .str dataPath),
           ("reference_path", .str referencePath), ("error_count", .int errorCount)]))

/-! ### Concrete stores and files used to instantiate the theorems -/

/-- A fresh log store whose AUTOINCREMENT counter starts at 1 and whose
INSERT statements succeed. -/
def db0 : DB := ⟨1, [], false⟩

/-- The non-null string cell "a". -/
def cellA : Cell := some (.str "a")

/-- A one-column file whose `id` column holds the value "a" three times. -/
def tableDup : Table := ⟨["id"], [[cellA], [cellA], [cellA]]⟩

/-- A filesystem holding only `dup.csv`. -/
def fsDup : FS := fun p => if p = "dup.csv" then .table tableDup else .missing

/-- The error count the specification ascribes to `column-unique`: the
total rows of the duplicated groups minus one per group ("excess rows"). -/
def specExcessRowCount (cells : List Cell) : Nat :=
  ((cells.dedup.filter (fun v => 1 < cells.count v)).map
    (fun v => cells.count v - 1)).sum

/-- A numeric cell. -/
def numCell (q : Rat) : Cell := some (.num q)

/-- The `[20, 30, 40]` column file of the boundary example. -/
def tableIn : Table := ⟨["v"], [[numCell 20], [numCell 30], [numCell 40]]⟩

/-- The `[19, 30, 40]` column file of the boundary example. -/
def tableOut : Table := ⟨["v"], [[numCell 19], [numCell 30], [numCell 40]]⟩

/-- An orders file whose only row has a NULL `user_id`. -/
def tableOrders : Table := ⟨["user_id"], [[none]]⟩

/-- A users file with the single `user_id` "1". -/
def tableUsers : Table := ⟨["user_id"], [[some (.str "1")]]⟩

/-- A file whose `status` column is entirely NULL. -/
def tableNulls : Table := ⟨["status"], [[none], [none]]⟩

/-- The filesystem the witness theorems run against. -/
def fsMain : FS := fun p =>
  if p = "dup.csv" then .table tableDup
  else if p = "bad.csv" then .unreadable
  else if p = "in.csv" then .table tableIn
  else if p = "out.csv" then .table tableOut
  else if p = "orders.csv" then .table tableOrders
  else if p = "users.csv" then .table tableUsers
  else if p = "nulls.csv" then .table tableNulls
  else .missing

/-- A log store whose INSERT statements fail. -/
def dbBad : DB := ⟨1, [], true⟩

/-- The id discipline of the log table: ids strictly increasing in
insertion order and below the AUTOINCREMENT counter. -/
def DB.Wf (db : DB) : Prop :=
  List.Chain' (fun a b => a < b) (db.entries.map (fun e => e.id))
  ∧ ∀ e ∈ db.entries, e.id < db.nextId

/-- Two invocations of one check against the same store: identical
boolean results, and exactly two new log records agreeing on check type,
result and parameters (hence on the logged `error_count`), with
increasing id and — for a non-decreasing clock — non-decreasing
timestamp. -/
def RunTwiceAgrees (chk : Nat → DB → CheckResult) (db : DB) (t1 t2 : Nat) : Prop :=
  (chk t1 db).1 = (chk t2 (chk t1 db).2.2).1
  ∧ ∃ e1 e2 : LogEntry,
      (chk t2 (chk t1 db).2.2).2.2.entries = db.entries ++ [e1, e2]
      ∧ e1.checkType = e2.checkType ∧ e1.result = e2.result
      ∧ e1.params = e2.params ∧ e1.id < e2.id
      ∧ (t1 ≤ t2 → e1.timestamp ≤ e2.timestamp)

/-- The record appended by `Log` with clock `now` and counter value
`nid`. -/
def mkEntry (nid now : Nat) (ct : String) (r : Bool)
    (ps : List (String × ParamValue)) : LogEntry :=
  ⟨nid, now, ct, r, ps⟩

/-! ### Shared facts about the common check shape -/

lemma logAndReturn_ok {db : DB} (h : db.failing = false) (now : Nat)
    (ct : String) (r : Bool) (ps : List (String × ParamValue)) :
    logAndReturn db now ct r ps = (r, none, db.append now ct r ps) := by
  simp [logAndReturn, DB.log, h]

lemma logAndReturn_failed {db : DB} (h : db.failing = true) (now : Nat)
    (ct : String) (r : Bool) (ps : List (String × ParamValue)) :
    logAndReturn db now ct r ps = (r, some .logWriteError, db) := by
  simp [logAndReturn, DB.log, h]

/-- Occurrence counting by decidable equality agrees with `List.count`. -/
lemma countP_eq_count (a : Cell) (cells : List Cell) :
    cells.countP (fun x => decide (x = a))
      = @List.count Cell instBEqOfDecidableEq a cells := rfl

/-- The HAVING COUNT(*) > 1 query finds no group exactly when the column
has no duplicated value. -/
lemma duplicateGroupCount_eq_zero_iff (cells : List Cell) :
    duplicateGroupCount cells = 0 ↔ cells.Nodup := by
  unfold duplicateGroupCount
  rw [List.length_eq_zero, List.filter_eq_nil_iff]
  simp only [countP_eq_count, decide_eq_true_eq, not_lt, List.mem_dedup]
  constructor
  · intro h
    rw [List.nodup_iff_count_le_one]
    intro a
    by_cases ha : a ∈ cells
    · exact h a ha
    · have hz : @List.count Cell instBEqOfDecidableEq a cells = 0 := by
        rw [← countP_eq_count, List.countP_eq_zero]
        intro x hx
        simp only [decide_eq_true_eq]
        intro hxa
        exact ha (hxa ▸ hx)
      omega
  · intro h a _
    exact List.nodup_iff_count_le_one.mp h a


lemma logAndReturn_fst (db : DB) (now : Nat) (ct : String) (r : Bool)
    (ps : List (String × ParamValue)) : (logAndReturn db now ct r ps).1 = r := by
  by_cases h : db.failing
  · simp [logAndReturn_failed h]
  · simp [logAndReturn_ok (Bool.eq_false_iff.mpr h)]

lemma logAndReturn_err (db : DB) (now : Nat) (ct : String) (r : Bool)
    (ps : List (String × ParamValue)) :
    (logAndReturn db now ct r ps).2.1
      = (if db.failing then some CheckError.logWriteError else none) := by
  by_cases h : db.failing
  · simp [logAndReturn_failed h, h]
  · simp [logAndReturn_ok (Bool.eq_false_iff.mpr h), h]

/-- One INSERT never changes whether the store fails. -/
lemma DB.append_failing (db : DB) (now : Nat) (ct : String) (r : Bool)
    (ps : List (String × ParamValue)) : (db.append now ct r ps).failing = db.failing := rfl

/-! ### Run equations: each check on a readable file with a valid query
and a working log store. -/

lemma IsColumnUnique_run {fs : FS} {p c : String} {t : Table} {cells : List Cell}
    {db : DB} (hfs : fs p = .table t) (hcol : projectColumn t c = some cells)
    (hdb : db.failing = false) (now : Nat) :
    IsColumnUnique fs now db p c
      = (decide (duplicateGroupCount cells = 0), none,
         db.append now "is_column_unique" (decide (duplicateGroupCount cells = 0))
           [("column", .str c), ("data_path", .str p),
            ("error_count", .int (duplicateGroupCount cells))]) := by
  simp [IsColumnUnique, withTable, hfs, hcol, logAndReturn_ok hdb]

lemma IsColumnNotNull_run {fs : FS} {p c : String} {t : Table} {cells : List Cell}
    {db : DB} (hfs : fs p = .table t) (hcol : projectColumn t c = some cells)
    (hdb : db.failing = false) (now : Nat) :
    IsColumnNotNull fs now db p c
      = (decide ((cells.filter (fun x => x.isNone)).length = 0), none,
         db.append now "is_column_not_null"
           (decide ((cells.filter (fun x => x.isNone)).length = 0))
           [("column", .str c), ("data_path", .str p),
            ("error_count", .int ((cells.filter (fun x => x.isNone)).length))]) := by
  simp [IsColumnNotNull, withTable, hfs, hcol, logAndReturn_ok hdb]

lemma IsColumnEnum_run {fs : FS} {p c : String} {t : Table} {cells : List Cell}
    {db : DB} (hfs : fs p = .table t) (hcol : projectColumn t c = some cells)
    (hdb : db.failing = false) (now : Nat) (vals : List String) :
    IsColumnEnum fs now db p c vals
      = (decide ((enumViolations cells vals).length = 0), none,
         db.append now "is_column_enum" (decide ((enumViolations cells vals).length = 0))
           [("column", .str c), ("enum_values", .strList vals),
            ("data_path", .str p),
            ("error_count", .int ((enumViolations cells vals).length))]) := by
  simp [IsColumnEnum, withTable, hfs, hcol, logAndReturn_ok hdb]

lemma AreDistinctValuesInSet_run {fs : FS} {p c : String} {t : Table}
    {cells : List Cell} {db : DB} (hfs : fs p = .table t)
    (hcol : projectColumn t c = some cells) (hdb : db.failing = false)
    (now : Nat) (vals : List String) :
    AreDistinctValuesInSet fs now db p c vals
      = (decide ((enumViolations cells vals).dedup.length = 0), none,
         db.append now "are_distinct_values_in_set"
           (decide ((enumViolations cells vals).dedup.length = 0))
           [("column", .str c), ("allowed", .strList vals),
            ("data_path", .str p),
            ("error_count", .int ((enumViolations cells vals).dedup.length))]) := by
  simp [AreDistinctValuesInSet, withTable, hfs, hcol, logAndReturn_ok hdb]

lemma IsColumnNotInSet_run {fs : FS} {p c : String} {t : Table} {cells : List Cell}
    {db : DB} (hfs : fs p = .table t) (hcol : projectColumn t c = some cells)
    (hdb : db.failing = false) (now : Nat) (bl : List String) :
    IsColumnNotInSet fs now db p c bl
      = (decide ((cells.filter (fun x => cellInSet x bl)).length = 0), none,
         db.append now "is_column_not_in_set"
           (decide ((cells.filter (fun x => cellInSet x bl)).length = 0))
           [("column", .str c), ("blacklist", .strList bl),
            ("data_path", .str p),
            ("error_count", .int ((cells.filter (fun x => cellInSet x bl)).length))]) := by
  simp [IsColumnNotInSet, withTable, hfs, hcol, logAndReturn_ok hdb]

lemma IsColumnInData_run {fs : FS} {p c : String} {t : Table} {db : DB}
    (hfs : fs p = .table t) (hdb : db.failing = false) (now : Nat) :
    IsColumnInData fs now db p c
      = ((projectColumn t c).isSome, none,
         db.append now "is_column_in_data" (projectColumn t c).isSome
           [("column", .str c), ("data_path", .str p)]) := by
  simp [IsColumnInData, withTable, hfs, logAndReturn_ok hdb]

lemma IsColumnBetween_run {fs : FS} {p c : String} {t : Table} {cells : List Cell}
    {db : DB} {mn mx : Rat} {n : Nat} (hfs : fs p = .table t)
    (hcol : projectColumn t c = some cells)
    (hcnt : betweenErrorCount mn mx cells = some n)
    (hdb : db.failing = false) (now : Nat) :
    IsColumnBetween fs now db p c mn mx
      = (decide (n = 0), none,
         db.append now "is_column_between" (decide (n = 0))
           [("column", .str c), ("min", .num mn), ("max", .num mx),
            ("data_path", .str p), ("error_count", .int n)]) := by
  simp [IsColumnBetween, withTable, hfs, hcol, hcnt, logAndReturn_ok hdb]

lemma AreTablesReferentialIntegral_run {fs : FS} {dp rp : String} {l r : Table}
    {keys : List String} {n : Nat} {db : DB} (hdp : fs dp = .table l)
    (hrp : fs rp = .table r) (hcnt : refErrorCount l r keys = some n)
    (hdb : db.failing = false) (now : Nat) :
    AreTablesReferentialIntegral fs now db dp rp keys
      = (decide (n = 0), none,
         db.append now "are_tables_referential_integral" (decide (n = 0))
           [("join_keys", .strList keys), ("data_path", .str dp),
            ("reference_path", .str rp), ("error_count", .int n)]) := by
  simp [AreTablesReferentialIntegral, withTable, hdp, hrp, hcnt, logAndReturn_ok hdb]


/-- The count returned by the between query equals the number of rows
the WHERE clause selects. -/
lemma betweenErrorCount_eq_filter (mn mx : Rat) :
    ∀ (cells : List Cell) (n : Nat), betweenErrorCount mn mx cells = some n →
      n = (cells.filter (fun x => decide (betweenSelected mn mx x = some true))).length := by
  intro cells
  induction cells with
  | nil =>
    intro n h
    simp [betweenErrorCount] at h
    simp [h.symm]
  | cons c rest ih =>
    intro n h
    cases hb : betweenSelected mn mx c with
    | none => simp [betweenErrorCount, hb] at h
    | some b =>
      cases hm : betweenErrorCount mn mx rest with
      | none => simp [betweenErrorCount, hb, hm] at h
      | some m =>
        have hn : n = if b then m + 1 else m := by
          simp [betweenErrorCount, hb, hm] at h
          omega
        cases b with
        | true => simp [List.filter_cons, hb, hn, ih m hm]
        | false => simp [List.filter_cons, hb, hn, ih m hm]

/-- The between query selects no row exactly when every numeric cell
lies inside the closed interval. -/
lemma betweenErrorCount_zero_iff (mn mx : Rat) :
    ∀ (cells : List Cell) (n : Nat), betweenErrorCount mn mx cells = some n →
      (n = 0 ↔ ∀ q : Rat, some (.num q) ∈ cells → mn ≤ q ∧ q ≤ mx) := by
  intro cells
  induction cells with
  | nil =>
    intro n h
    simp [betweenErrorCount] at h
    simp [h.symm]
  | cons c rest ih =>
    intro n h
    cases hb : betweenSelected mn mx c with
    | none => simp [betweenErrorCount, hb] at h
    | some b =>
      cases hm : betweenErrorCount mn mx rest with
      | none => simp [betweenErrorCount, hb, hm] at h
      | some m =>
        have hn : n = if b then m + 1 else m := by
          simp [betweenErrorCount, hb, hm] at h
          omega
        have hrest := ih m hm
        cases c with
        | none =>
          cases b with
          | true => simp [betweenSelected] at hb
          | false =>
            have hn' : n = m := by simpa using hn
            subst hn'
            rw [hrest]
            constructor
            · intro hall q hq
              rcases List.mem_cons.mp hq with hq0 | hq1
              · exact absurd hq0 (by simp)
              · exact hall q hq1
            · intro hall q hq
              exact hall q (List.mem_cons_of_mem _ hq)
        | some v =>
          cases v with
          | str s => simp [betweenSelected] at hb
          | num q0 =>
            have hb0 : (decide (q0 < mn) || decide (mx < q0)) = b := by
              simp only [betweenSelected, Option.some.injEq] at hb
              exact hb
            cases b with
            | true =>
              have hn' : n = m + 1 := by simpa using hn
              subst hn'
              constructor
              · intro h0
                exact absurd h0 (Nat.succ_ne_zero m)
              · intro hall
                have h1 := hall q0 (by simp)
                have h4 : q0 < mn ∨ mx < q0 := by simpa using hb0
                rcases h4 with h3 | h3
                · exact absurd h3 (not_lt.mpr h1.1)
                · exact absurd h3 (not_lt.mpr h1.2)
            | false =>
              have hn' : n = m := by simpa using hn
              subst hn'
              rw [hrest]
              have h2 : mn ≤ q0 ∧ q0 ≤ mx := by
                have h' : (decide (q0 < mn) || decide (mx < q0)) = false := hb0
                simp at h'
                exact h'
              constructor
              · intro hall q hq
                rcases List.mem_cons.mp hq with hq0 | hq1
                · have hqq : q = q0 := by simpa using hq0
                  subst hqq
                  exact h2
                · exact hall q hq1
              · intro hall q hq
                exact hall q (List.mem_cons_of_mem _ hq)

/-! ### C1 — column-unique -/

/-- C1, counterexample: on a column holding "a" three times the check
returns false but logs `error_count = 1` (one duplicated group), while
the claim's formula (excess rows across duplicate groups) predicts 2. -/
theorem claim_C1_counterexample :
    (IsColumnUnique fsDup 0 db0 "dup.csv" "id").1 = false
    ∧ (IsColumnUnique fsDup 0 db0 "dup.csv" "id").2.2.entries
        = [⟨1, 0, "is_column_unique", false,
            [("column", .str "id"), ("data_path", .str "dup.csv"),
             ("error_count", .int 1)]⟩]
    ∧ specExcessRowCount [cellA, cellA, cellA] = 2
    ∧ ¬ ((1 : Int) = 2) := by
  decide

/-- C1 (amended): on a readable file with the target column present and
a working log store, `IsColumnUnique` returns true iff the column has no
duplicated value, returns no error, and appends one record whose
`error_count` is the number of duplicated groups (not the excess-row
count); in particular a duplicate-free column logs `error_count = 0`. -/
theorem claim_C1_unique_result_and_logged_count
    (fs : FS) (now : Nat) (db : DB) (p c : String) (t : Table) (cells : List Cell)
    (hfs : fs p = .table t) (hcol : projectColumn t c = some cells)
    (hdb : db.failing = false) :
    ((IsColumnUnique fs now db p c).1 = true ↔ cells.Nodup)
    ∧ (IsColumnUnique fs now db p c).2.1 = none
    ∧ (IsColumnUnique fs now db p c).2.2
        = db.append now "is_column_unique" (decide (duplicateGroupCount cells = 0))
            [("column", .str c), ("data_path", .str p),
             ("error_count", .int (duplicateGroupCount cells))]
    ∧ (cells.Nodup → duplicateGroupCount cells = 0) := by
  have hrun : IsColumnUnique fs now db p c
      = (decide (duplicateGroupCount cells = 0), none,
         db.append now "is_column_unique" (decide (duplicateGroupCount cells = 0))
           [("column", .str c), ("data_path", .str p),
            ("error_count", .int (duplicateGroupCount cells))]) := by
    simp [IsColumnUnique, withTable, hfs, hcol, logAndReturn_ok hdb]
  rw [hrun]
  refine ⟨?_, rfl, rfl, fun h => (duplicateGroupCount_eq_zero_iff cells).mpr h⟩
  simpa using duplicateGroupCount_eq_zero_iff cells

/-- Instantiates C1's amended theorem on the concrete duplicate file. -/
theorem claim_C1_unique_result_and_logged_count_witness :
    (IsColumnUnique fsDup 5 db0 "dup.csv" "id").2.1 = none
    ∧ ((IsColumnUnique fsDup 5 db0 "dup.csv" "id").1 = true
        ↔ ([cellA, cellA, cellA] : List Cell).Nodup) := by
  have h := claim_C1_unique_result_and_logged_count fsDup 5 db0 "dup.csv" "id"
    tableDup [cellA, cellA, cellA] (by decide) (by decide) rfl
  exact ⟨h.2.1, h.1⟩

/-! ### C6 — column-between, inclusive bounds -/

/-- C6: `IsColumnBetween` treats its bounds as inclusive: a row is a
violation exactly when its value is strictly below `min` or strictly
above `max`; the check passes iff every numeric cell lies in the closed
interval, and the logged `error_count` is the number of violating rows. -/
theorem claim_C6_between_bounds_inclusive
    (fs : FS) (now : Nat) (db : DB) (p c : String) (mn mx : Rat)
    (t : Table) (cells : List Cell) (n : Nat)
    (hfs : fs p = .table t) (hcol : projectColumn t c = some cells)
    (hcnt : betweenErrorCount mn mx cells = some n) (hdb : db.failing = false) :
    ((IsColumnBetween fs now db p c mn mx).1 = true
       ↔ ∀ q : Rat, some (.num q) ∈ cells → mn ≤ q ∧ q ≤ mx)
    ∧ n = (cells.filter (fun x => decide (betweenSelected mn mx x = some true))).length
    ∧ (IsColumnBetween fs now db p c mn mx).2.2
        = db.append now "is_column_between" (decide (n = 0))
            [("column", .str c), ("min", .num mn), ("max", .num mx),
             ("data_path", .str p), ("error_count", .int n)] := by
  rw [IsColumnBetween_run hfs hcol hcnt hdb]
  refine ⟨?_, betweenErrorCount_eq_filter mn mx cells n hcnt, rfl⟩
  simpa using betweenErrorCount_zero_iff mn mx cells n hcnt

/-- Instantiates C6 on the boundary example: `[20,30,40]` passes with
bounds `[20,40]`; `[19,30,40]` fails and logs `error_count = 1`. -/
theorem claim_C6_between_bounds_inclusive_witness :
    (IsColumnBetween fsMain 0 db0 "in.csv" "v" 20 40).1 = true
    ∧ (IsColumnBetween fsMain 0 db0 "out.csv" "v" 20 40).1 = false
    ∧ (IsColumnBetween fsMain 0 db0 "out.csv" "v" 20 40).2.2
        = db0.append 0 "is_column_between" false
            [("column", .str "v"), ("min", .num 20), ("max", .num 40),
             ("data_path", .str "out.csv"), ("error_count", .int 1)] := by
  have h := claim_C6_between_bounds_inclusive fsMain 0 db0 "out.csv" "v" 20 40
    tableOut [numCell 19, numCell 30, numCell 40] 1
    (by decide) (by decide) (by decide) rfl
  refine ⟨by decide, ?_, by simpa using h.2.2⟩
  rw [Bool.eq_false_iff]
  intro hc
  have h19 := (h.1.mp hc) 19 (by decide)
  exact absurd h19.1 (by decide)

/-! ### C3 — column-in-data -/

/-- C3: on a readable file with a working log store, `IsColumnInData`
returns true iff the column can be projected, returns no error, and logs
the outcome in both cases; only a failed path validation (missing or
unreadable path) is propagated as an error, without logging. -/
theorem claim_C3_column_in_data_no_error
    (fs : FS) (now : Nat) (db : DB) (p c : String) (t : Table)
    (hfs : fs p = .table t) (hdb : db.failing = false) :
    ((IsColumnInData fs now db p c).1 = (projectColumn t c).isSome)
    ∧ (IsColumnInData fs now db p c).2.1 = none
    ∧ (IsColumnInData fs now db p c).2.2
        = db.append now "is_column_in_data" (projectColumn t c).isSome
            [("column", .str c), ("data_path", .str p)]
    ∧ (∀ (fs2 : FS) (now2 : Nat) (db2 : DB) (p2 c2 : String),
         fs2 p2 = .missing →
           IsColumnInData fs2 now2 db2 p2 c2 = (false, some (.notFound p2), db2))
    ∧ (∀ (fs2 : FS) (now2 : Nat) (db2 : DB) (p2 c2 : String),
         fs2 p2 = .unreadable →
           IsColumnInData fs2 now2 db2 p2 c2 = (false, some (.unreadableFile p2), db2)) := by
  rw [IsColumnInData_run hfs hdb]
  refine ⟨rfl, rfl, rfl, ?_, ?_⟩
  · intro fs2 now2 db2 p2 c2 h2
    simp [IsColumnInData, withTable, h2]
  · intro fs2 now2 db2 p2 c2 h2
    simp [IsColumnInData, withTable, h2]

/-- Instantiates C3: an existing column yields true, a missing column
yields false, neither with an error. -/
theorem claim_C3_column_in_data_no_error_witness :
    (IsColumnInData fsMain 1 db0 "users.csv" "user_id").1 = true
    ∧ (IsColumnInData fsMain 1 db0 "users.csv" "nope").1 = false
    ∧ (IsColumnInData fsMain 1 db0 "users.csv" "nope").2.1 = none := by
  have h1 := claim_C3_column_in_data_no_error fsMain 1 db0 "users.csv" "user_id"
    tableUsers (by decide) rfl
  have h2 := claim_C3_column_in_data_no_error fsMain 1 db0 "users.csv" "nope"
    tableUsers (by decide) rfl
  refine ⟨?_, ?_, h2.2.1⟩
  · rw [h1.1]
    decide
  · rw [h2.1]
    decide

/-! ### C10 — column-not-in-set ignores NULL cells -/

/-- C10: `IsColumnNotInSet` never counts a NULL cell as a blacklist
member (NULL IN (...) is NULL), so the check passes iff no cell is in
the blacklist, and a column consisting entirely of NULLs passes with
`error_count = 0`. -/
theorem claim_C10_not_in_set_ignores_nulls
    (fs : FS) (now : Nat) (db : DB) (p c : String) (bl : List String)
    (t : Table) (cells : List Cell)
    (hfs : fs p = .table t) (hcol : projectColumn t c = some cells)
    (hdb : db.failing = false) :
    (∀ bl2 : List String, cellInSet none bl2 = false)
    ∧ ((IsColumnNotInSet fs now db p c bl).1 = true
        ↔ ∀ x ∈ cells, cellInSet x bl = false)
    ∧ ((∀ x ∈ cells, x = (none : Cell)) →
        (IsColumnNotInSet fs now db p c bl).1 = true
        ∧ (IsColumnNotInSet fs now db p c bl).2.2
            = db.append now "is_column_not_in_set" true
                [("column", .str c), ("blacklist", .strList bl),
                 ("data_path", .str p), ("error_count", .int 0)]) := by
  rw [IsColumnNotInSet_run hfs hcol hdb]
  refine ⟨fun bl2 => rfl, ?_, ?_⟩
  · simp [List.length_eq_zero, List.filter_eq_nil_iff]
  · intro hall
    have hz : (cells.filter (fun x => cellInSet x bl)).length = 0 := by
      rw [List.length_eq_zero, List.filter_eq_nil_iff]
      intro a ha
      rw [hall a ha]
      simp [cellInSet]
    constructor
    · simp [hz]
    · simp [hz]

/-- Instantiates C10 on a column of two NULLs against blacklist ["x"]. -/
theorem claim_C10_not_in_set_ignores_nulls_witness :
    (IsColumnNotInSet fsMain 2 db0 "nulls.csv" "status" ["x"]).1 = true
    ∧ (IsColumnNotInSet fsMain 2 db0 "nulls.csv" "status" ["x"]).2.2
        = db0.append 2 "is_column_not_in_set" true
            [("column", .str "status"), ("blacklist", .strList ["x"]),
             ("data_path", .str "nulls.csv"), ("error_count", .int 0)] := by
  have h := claim_C10_not_in_set_ignores_nulls fsMain 2 db0 "nulls.csv" "status"
    ["x"] tableNulls [none, none] (by decide) (by decide) rfl
  exact h.2.2 (by decide)


/-! ### C9 — enum versus distinct-values-in-set -/

/-- C9: `AreDistinctValuesInSet` and `IsColumnEnum` share the WHERE
clause and differ only in counting distinct values versus rows, so on
all inputs they return the same boolean (and the same error, if any);
both pass exactly when no non-null value of the column lies outside the
given set. -/
theorem claim_C9_enum_distinct_same_boolean
    (fs : FS) (now : Nat) (db : DB) (p c : String) (vals : List String)
    (t : Table) (cells : List Cell)
    (hfs : fs p = .table t) (hcol : projectColumn t c = some cells) :
    (∀ (fs2 : FS) (now2 : Nat) (db2 : DB) (p2 c2 : String) (vals2 : List String),
       (IsColumnEnum fs2 now2 db2 p2 c2 vals2).1
         = (AreDistinctValuesInSet fs2 now2 db2 p2 c2 vals2).1
       ∧ (IsColumnEnum fs2 now2 db2 p2 c2 vals2).2.1
         = (AreDistinctValuesInSet fs2 now2 db2 p2 c2 vals2).2.1)
    ∧ ((IsColumnEnum fs now db p c vals).1 = true
         ↔ ∀ v : Value, some v ∈ cells → cellInSet (some v) vals = true) := by
  constructor
  · intro fs2 now2 db2 p2 c2 vals2
    cases h2 : fs2 p2 with
    | missing => simp [IsColumnEnum, AreDistinctValuesInSet, withTable, h2]
    | unreadable => simp [IsColumnEnum, AreDistinctValuesInSet, withTable, h2]
    | table t2 =>
      cases h3 : projectColumn t2 c2 with
      | none => simp [IsColumnEnum, AreDistinctValuesInSet, withTable, h2, h3]
      | some cs =>
        constructor
        · simp only [IsColumnEnum, AreDistinctValuesInSet, withTable, h2, h3,
            logAndReturn_fst]
          rw [decide_eq_decide]
          simp [List.length_eq_zero, List.dedup_eq_nil]
        · simp only [IsColumnEnum, AreDistinctValuesInSet, withTable, h2, h3,
            logAndReturn_err]
  · have hfst : (IsColumnEnum fs now db p c vals).1
        = decide ((enumViolations cells vals).length = 0) := by
      simp only [IsColumnEnum, withTable, hfs, hcol, logAndReturn_fst]
    rw [hfst]
    simp only [decide_eq_true_eq, List.length_eq_zero, enumViolations,
      List.filter_eq_nil_iff]
    constructor
    · intro h v hv
      have := h (some v) hv
      simpa using this
    · intro h x hx
      cases x with
      | none => simp
      | some v =>
        have := h v hx
        simp [this]

/-- Instantiates C9 on the valid-enum file (a column of NULLs, which
both checks ignore). -/
theorem claim_C9_enum_distinct_same_boolean_witness :
    ((IsColumnEnum fsMain 3 db0 "nulls.csv" "status" ["active"]).1
       = (AreDistinctValuesInSet fsMain 3 db0 "nulls.csv" "status" ["active"]).1)
    ∧ (IsColumnEnum fsMain 3 db0 "nulls.csv" "status" ["active"]).1 = true := by
  have h := claim_C9_enum_distinct_same_boolean fsMain 3 db0 "nulls.csv" "status"
    ["active"] tableNulls [none, none] (by decide) (by decide)
  refine ⟨(h.1 fsMain 3 db0 "nulls.csv" "status" ["active"]).1, ?_⟩
  rw [h.2]
  intro v hv
  rcases List.mem_cons.mp hv with h0 | h0
  · exact absurd h0 (by simp)
  · rcases List.mem_cons.mp h0 with h1 | h1
    · exact absurd h1 (by simp)
    · exact absurd h1 (by simp)

/-! ### C2 — referential integrity and NULL join keys -/

/-- C2, counterexample: an orders file whose single row has a NULL
`user_id` vacuously satisfies "every non-null join-key value exists in
the reference file", yet the check returns false — the NULL-keyed row is
counted as a violation because the NULL never matches in the LEFT JOIN. -/
theorem claim_C2_counterexample :
    (AreTablesReferentialIntegral fsMain 0 db0 "orders.csv" "users.csv"
        ["user_id"]).1 = false
    ∧ (∀ v ∈ (tableOrders.rows.map (fun r => r.getD 0 none)).filterMap id,
         v ∈ (tableUsers.rows.map (fun r => r.getD 0 none)).filterMap id) := by
  decide

/-- C2 (amended): with both paths readable, the key columns present on
both sides and a non-empty key list, the check passes iff every data row
has a matching reference row, where a match requires all key cells to be
non-null and equal on both sides; consequently a data row with a NULL
key cell matches nothing and its presence makes the check fail. -/
theorem claim_C2_referential_null_keys_counted
    (fs : FS) (now : Nat) (db : DB) (dp rp : String) (keys : List String)
    (l r : Table) (li ri : List Nat)
    (hdp : fs dp = .table l) (hrp : fs rp = .table r)
    (hli : keyIdxs l keys = some li) (hri : keyIdxs r keys = some ri)
    (hne : keys ≠ []) (hdb : db.failing = false) :
    ((AreTablesReferentialIntegral fs now db dp rp keys).1 = true
       ↔ ∀ lrow ∈ l.rows, ∃ rrow ∈ r.rows, rowMatches li ri lrow rrow = true)
    ∧ (∀ lrow rrow : List Cell, ∀ pr ∈ li.zip ri,
         lrow.getD pr.1 none = none → rowMatches li ri lrow rrow = false)
    ∧ ((∃ lrow ∈ l.rows, ∃ pr ∈ li.zip ri, lrow.getD pr.1 none = none) →
         (AreTablesReferentialIntegral fs now db dp rp keys).1 = false) := by
  have hcnt : refErrorCount l r keys
      = some (l.rows.filter (fun lrow =>
          !(r.rows.any (fun rrow => rowMatches li ri lrow rrow)))).length := by
    cases keys with
    | nil => exact absurd rfl hne
    | cons k ks => simp [refErrorCount, hli, hri]
  have h1 : (AreTablesReferentialIntegral fs now db dp rp keys).1 = true
      ↔ ∀ lrow ∈ l.rows, ∃ rrow ∈ r.rows, rowMatches li ri lrow rrow = true := by
    rw [AreTablesReferentialIntegral_run hdp hrp hcnt hdb]
    simp [List.length_eq_zero, List.filter_eq_nil_iff, List.any_eq_true]
  have h2 : ∀ lrow rrow : List Cell, ∀ pr ∈ li.zip ri,
      lrow.getD pr.1 none = none → rowMatches li ri lrow rrow = false := by
    intro lrow rrow pr hpr h0
    rw [rowMatches, List.all_eq_false]
    refine ⟨pr, hpr, ?_⟩
    rw [h0]
    cases rrow.getD pr.2 none <;> simp [cellsMatch]
  refine ⟨h1, h2, ?_⟩
  rintro ⟨lrow, hlrow, pr, hpr, h0⟩
  cases hres : (AreTablesReferentialIntegral fs now db dp rp keys).1 with
  | false => rfl
  | true =>
    obtain ⟨rrow, hrrow, hmatch⟩ := (h1.mp hres) lrow hlrow
    rw [h2 lrow rrow pr hpr h0] at hmatch
    exact absurd hmatch (by simp)

/-- Instantiates C2's amended theorem on the NULL-keyed orders file. -/
theorem claim_C2_referential_null_keys_counted_witness :
    ((AreTablesReferentialIntegral fsMain 0 db0 "orders.csv" "users.csv"
        ["user_id"]).1 = true
      ↔ ∀ lrow ∈ tableOrders.rows, ∃ rrow ∈ tableUsers.rows,
          rowMatches [0] [0] lrow rrow = true)
    ∧ (AreTablesReferentialIntegral fsMain 0 db0 "orders.csv" "users.csv"
        ["user_id"]).1 = false := by
  have h := claim_C2_referential_null_keys_counted fsMain 0 db0 "orders.csv"
    "users.csv" ["user_id"] tableOrders tableUsers [0] [0]
    (by decide) (by decide) (by decide) (by decide) (by decide) rfl
  refine ⟨h.1, h.2.2 ⟨[none], by decide, (0, 0), by decide, rfl⟩⟩

/-! ### C4 — errors before a result leave the log unchanged -/

/-- C4: for every embedded check other than column-in-data, a missing
path, an unreadable path, or a failing counting query (e.g. the
referenced column does not exist) returns that error with a false
boolean and leaves the log store untouched. -/
theorem claim_C4_no_log_on_error
    (fs : FS) (now : Nat) (db : DB) (q u p rp : String) (c : String)
    (t rt : Table) (mn mx : Rat) (vals bl : List String)
    (hq : fs q = .missing) (hu : fs u = .unreadable)
    (hp : fs p = .table t) (hrp : fs rp = .table rt)
    (hcol : projectColumn t c = none) :
    (IsColumnUnique fs now db q c = (false, some (.notFound q), db)
     ∧ IsColumnUnique fs now db u c = (false, some (.unreadableFile u), db)
     ∧ IsColumnUnique fs now db p c = (false, some .queryError, db))
    ∧ (IsColumnNotNull fs now db q c = (false, some (.notFound q), db)
     ∧ IsColumnNotNull fs now db u c = (false, some (.unreadableFile u), db)
     ∧ IsColumnNotNull fs now db p c = (false, some .queryError, db))
    ∧ (IsColumnEnum fs now db q c vals = (false, some (.notFound q), db)
     ∧ IsColumnEnum fs now db u c vals = (false, some (.unreadableFile u), db)
     ∧ IsColumnEnum fs now db p c vals = (false, some .queryError, db))
    ∧ (AreDistinctValuesInSet fs now db q c vals = (false, some (.notFound q), db)
     ∧ AreDistinctValuesInSet fs now db u c vals = (false, some (.unreadableFile u), db)
     ∧ AreDistinctValuesInSet fs now db p c vals = (false, some .queryError, db))
    ∧ (IsColumnNotInSet fs now db q c bl = (false, some (.notFound q), db)
     ∧ IsColumnNotInSet fs now db u c bl = (false, some (.unreadableFile u), db)
     ∧ IsColumnNotInSet fs now db p c bl = (false, some .queryError, db))
    ∧ (IsColumnBetween fs now db q c mn mx = (false, some (.notFound q), db)
     ∧ IsColumnBetween fs now db u c mn mx = (false, some (.unreadableFile u), db)
     ∧ IsColumnBetween fs now db p c mn mx = (false, some .queryError, db))
    ∧ (AreTablesReferentialIntegral fs now db q rp [c] = (false, some (.notFound q), db)
     ∧ AreTablesReferentialIntegral fs now db p u [c] = (false, some (.unreadableFile u), db)
     ∧ AreTablesReferentialIntegral fs now db p rp [c] = (false, some .queryError, db)) := by
  have hidx : List.findIdx? (fun x => decide (x = c)) t.cols = none := by
    have h' := hcol
    simp only [projectColumn, Option.map_eq_none'] at h'
    exact h'
  have hk : keyIdxs t [c] = none := by
    simp [keyIdxs, List.mapM, List.mapM.loop, hidx]
  refine ⟨⟨?_, ?_, ?_⟩, ⟨?_, ?_, ?_⟩, ⟨?_, ?_, ?_⟩, ⟨?_, ?_, ?_⟩,
    ⟨?_, ?_, ?_⟩, ⟨?_, ?_, ?_⟩, ⟨?_, ?_, ?_⟩⟩
  · simp [IsColumnUnique, withTable, hq]
  · simp [IsColumnUnique, withTable, hu]
  · simp [IsColumnUnique, withTable, hp, hcol]
  · simp [IsColumnNotNull, withTable, hq]
  · simp [IsColumnNotNull, withTable, hu]
  · simp [IsColumnNotNull, withTable, hp, hcol]
  · simp [IsColumnEnum, withTable, hq]
  · simp [IsColumnEnum, withTable, hu]
  · simp [IsColumnEnum, withTable, hp, hcol]
  · simp [AreDistinctValuesInSet, withTable, hq]
  · simp [AreDistinctValuesInSet, withTable, hu]
  · simp [AreDistinctValuesInSet, withTable, hp, hcol]
  · simp [IsColumnNotInSet, withTable, hq]
  · simp [IsColumnNotInSet, withTable, hu]
  · simp [IsColumnNotInSet, withTable, hp, hcol]
  · simp [IsColumnBetween, withTable, hq]
  · simp [IsColumnBetween, withTable, hu]
  · simp [IsColumnBetween, withTable, hp, hcol]
  · simp [AreTablesReferentialIntegral, withTable, hq]
  · simp [AreTablesReferentialIntegral, withTable, hp, hu]
  · simp [AreTablesReferentialIntegral, withTable, hp, hrp, refErrorCount, hk]

/-- Instantiates C4: a missing path and a missing column both return an
error and leave the fresh store db0 unchanged. -/
theorem claim_C4_no_log_on_error_witness :
    IsColumnUnique fsMain 0 db0 "nope.csv" "zzz"
      = (false, some (.notFound "nope.csv"), db0)
    ∧ IsColumnUnique fsMain 0 db0 "dup.csv" "zzz" = (false, some .queryError, db0)
    ∧ AreTablesReferentialIntegral fsMain 0 db0 "dup.csv" "users.csv" ["zzz"]
      = (false, some .queryError, db0) := by
  have h := claim_C4_no_log_on_error fsMain 0 db0 "nope.csv" "bad.csv" "dup.csv"
    "users.csv" "zzz" tableDup tableUsers 0 1 [] []
    (by decide) (by decide) (by decide) (by decide) (by decide)
  exact ⟨h.1.1, h.1.2.2, h.2.2.2.2.2.2.2.2⟩

/-! ### C5 — a failed log append never masks the computed result -/

/-- C5: for every embedded check, when the boolean result has been
computed but the log INSERT fails, the check returns the
already-computed boolean together with `LogWriteError`, and the store is
unchanged. -/
theorem claim_C5_log_failure_keeps_result
    (fs : FS) (now : Nat) (db : DB) (p rp c : String) (t rt : Table)
    (cells : List Cell) (mn mx : Rat) (vals bl keys : List String) (n m : Nat)
    (hdb : db.failing = true)
    (hp : fs p = .table t) (hcol : projectColumn t c = some cells)
    (hrp : fs rp = .table rt)
    (hn : betweenErrorCount mn mx cells = some n)
    (hm : refErrorCount t rt keys = some m) :
    IsColumnUnique fs now db p c
      = (decide (duplicateGroupCount cells = 0), some .logWriteError, db)
    ∧ IsColumnNotNull fs now db p c
      = (decide ((cells.filter (fun x => x.isNone)).length = 0), some .logWriteError, db)
    ∧ IsColumnEnum fs now db p c vals
      = (decide ((enumViolations cells vals).length = 0), some .logWriteError, db)
    ∧ AreDistinctValuesInSet fs now db p c vals
      = (decide ((enumViolations cells vals).dedup.length = 0), some .logWriteError, db)
    ∧ IsColumnNotInSet fs now db p c bl
      = (decide ((cells.filter (fun x => cellInSet x bl)).length = 0),
         some .logWriteError, db)
    ∧ IsColumnInData fs now db p c
      = ((projectColumn t c).isSome, some .logWriteError, db)
    ∧ IsColumnBetween fs now db p c mn mx = (decide (n = 0), some .logWriteError, db)
    ∧ AreTablesReferentialIntegral fs now db p rp keys
      = (decide (m = 0), some .logWriteError, db) := by
  refine ⟨?_, ?_, ?_, ?_, ?_, ?_, ?_, ?_⟩
  · simp [IsColumnUnique, withTable, hp, hcol, logAndReturn_failed hdb]
  · simp [IsColumnNotNull, withTable, hp, hcol, logAndReturn_failed hdb]
  · simp [IsColumnEnum, withTable, hp, hcol, logAndReturn_failed hdb]
  · simp [AreDistinctValuesInSet, withTable, hp, hcol, logAndReturn_failed hdb]
  · simp [IsColumnNotInSet, withTable, hp, hcol, logAndReturn_failed hdb]
  · simp [IsColumnInData, withTable, hp, logAndReturn_failed hdb]
  · simp [IsColumnBetween, withTable, hp, hcol, hn, logAndReturn_failed hdb]
  · simp [AreTablesReferentialIntegral, withTable, hp, hrp, hm,
      logAndReturn_failed hdb]

/-- Instantiates C5 on a failing store: the unique check still reports
its computed `true` while returning `LogWriteError`, and the failing
referential check still reports its computed `false`. -/
theorem claim_C5_log_failure_keeps_result_witness :
    IsColumnUnique fsMain 0 dbBad "orders.csv" "user_id"
      = (true, some .logWriteError, dbBad)
    ∧ AreTablesReferentialIntegral fsMain 0 dbBad "orders.csv" "users.csv"
        ["user_id"] = (false, some .logWriteError, dbBad) := by
  have h := claim_C5_log_failure_keeps_result fsMain 0 dbBad "orders.csv"
    "users.csv" "user_id" tableOrders tableUsers [none] 0 1 ["x"] ["x"]
    ["user_id"] 0 1 rfl (by decide) (by decide) (by decide) (by decide) (by decide)
  constructor
  · rw [h.1]
    decide
  · rw [h.2.2.2.2.2.2.2]
    decide

/-! ### C7 — log-store invariants -/

lemma mem_of_getLast_mem {α : Type} {l : List α} {x : α}
    (h : x ∈ l.getLast?) : x ∈ l := by
  rcases List.mem_getLast?_eq_getLast h with ⟨hne, hx⟩
  rw [hx]
  exact List.getLast_mem hne

lemma chain_append_single {α : Type} (R : α → α → Prop) (l : List α) (a : α)
    (hl : List.Chain' R l) (hlast : ∀ x ∈ l, R x a) :
    List.Chain' R (l ++ [a]) := by
  refine List.Chain'.append hl (List.chain'_singleton a) ?_
  intro x hx y hy
  simp at hy
  subst hy
  exact hlast x (mem_of_getLast_mem hx)

/-- A successful `Log` call is exactly one append. -/
lemma DB.log_ok {db : DB} {now : Nat} {ct : String} {r : Bool}
    {ps : List (String × ParamValue)} {db' : DB}
    (h : DB.log db now ct r ps = .ok db') : db' = db.append now ct r ps := by
  by_cases hf : db.failing
  · simp [DB.log, hf] at h
  · simp [DB.log, hf] at h
    exact h.symm

/-- A successful `ClearLogs` call empties the table and keeps the
AUTOINCREMENT counter. -/
lemma DB.clearLogs_ok {db db' : DB} (h : DB.clearLogs db = .ok db') :
    db' = { nextId := db.nextId, entries := [], failing := db.failing } := by
  by_cases hf : db.failing
  · simp [DB.clearLogs, hf] at h
  · have hf' : db.failing = false := Bool.eq_false_iff.mpr hf
    simp [DB.clearLogs, hf'] at h
    rw [hf']
    exact h.symm

/-- C7: a successful append adds exactly one record at the end (existing
records are untouched) whose id is the AUTOINCREMENT counter; strictly
increasing ids are preserved by append and by clear; timestamps stay
non-decreasing whenever the append-time clock is at or after every
recorded timestamp; clear removes all records. -/
theorem claim_C7_log_store_invariants :
    (∀ (db : DB) (now : Nat) (ct : String) (r : Bool)
        (ps : List (String × ParamValue)) (db' : DB),
        DB.log db now ct r ps = .ok db' →
          db'.entries = db.entries ++ [mkEntry db.nextId now ct r ps]
          ∧ db'.nextId = db.nextId + 1)
    ∧ (∀ (db : DB) (now : Nat) (ct : String) (r : Bool)
        (ps : List (String × ParamValue)) (db' : DB),
        DB.log db now ct r ps = .ok db' → db.Wf → db'.Wf)
    ∧ (∀ (db : DB) (now : Nat) (ct : String) (r : Bool)
        (ps : List (String × ParamValue)) (db' : DB),
        DB.log db now ct r ps = .ok db' →
        List.Chain' (fun a b => a ≤ b)
          (db.entries.map (fun e : LogEntry => e.timestamp)) →
        (∀ e ∈ db.entries, e.timestamp ≤ now) →
        List.Chain' (fun a b => a ≤ b)
          (db'.entries.map (fun e : LogEntry => e.timestamp)))
    ∧ (∀ (db db' : DB), DB.clearLogs db = .ok db' →
        db'.entries = [] ∧ db'.Wf) := by
  refine ⟨?_, ?_, ?_, ?_⟩
  · intro db now ct r ps db' h
    rw [DB.log_ok h]
    exact ⟨rfl, rfl⟩
  · intro db now ct r ps db' h hwf
    rw [DB.log_ok h]
    constructor
    · show List.Chain' (fun a b => a < b)
        ((db.entries ++ [mkEntry db.nextId now ct r ps]).map
          (fun e : LogEntry => e.id))
      rw [List.map_append, List.map_cons, List.map_nil]
      refine chain_append_single _ _ _ hwf.1 ?_
      intro x hx
      rcases List.mem_map.mp hx with ⟨e, he, hex⟩
      rw [← hex]
      exact hwf.2 e he
    · intro e he
      show e.id < db.nextId + 1
      rcases List.mem_append.mp he with h1 | h1
      · exact Nat.lt_succ_of_lt (hwf.2 e h1)
      · have he2 : e = mkEntry db.nextId now ct r ps := by simpa using h1
        rw [he2]
        exact Nat.lt_succ_self _
  · intro db now ct r ps db' h hchain hle
    rw [DB.log_ok h]
    show List.Chain' (fun a b => a ≤ b)
      ((db.entries ++ [mkEntry db.nextId now ct r ps]).map
        (fun e : LogEntry => e.timestamp))
    rw [List.map_append, List.map_cons, List.map_nil]
    refine chain_append_single _ _ _ hchain ?_
    intro x hx
    rcases List.mem_map.mp hx with ⟨e, he, hex⟩
    rw [← hex]
    exact hle e he
  · intro db db' h
    rw [DB.clearLogs_ok h]
    refine ⟨rfl, List.chain'_nil, ?_⟩
    intro e he
    exact absurd he (List.not_mem_nil e)

/-- Instantiates C7 on the fresh store db0: one append yields exactly
one record with id 1 and a well-formed store; clearing empties it. -/
theorem claim_C7_log_store_invariants_witness :
    (db0.append 3 "t" true []).entries = db0.entries ++ [⟨1, 3, "t", true, []⟩]
    ∧ (db0.append 3 "t" true []).Wf
    ∧ ((⟨2, [], false⟩ : DB).entries = [] ∧ (⟨2, [], false⟩ : DB).Wf) := by
  have h0wf : db0.Wf := by
    constructor
    · exact List.chain'_nil
    · intro e he
      exact absurd he (List.not_mem_nil e)
  have hlog : DB.log db0 3 "t" true [] = .ok (db0.append 3 "t" true []) := rfl
  have hclear : DB.clearLogs (db0.append 3 "t" true []) = .ok (⟨2, [], false⟩ : DB) := rfl
  have h := claim_C7_log_store_invariants
  exact ⟨(h.1 db0 3 "t" true [] _ hlog).1,
         h.2.1 db0 3 "t" true [] _ hlog h0wf,
         h.2.2.2 _ _ hclear⟩

/-! ### C8 — identical reruns -/

/-- If each of two consecutive runs of a check is one successful append
of the same check type, result and parameters, then the two runs agree
in the sense of `RunTwiceAgrees`. -/
lemma runTwice_of_append (chk : Nat → DB → CheckResult) (db : DB) (t1 t2 : Nat)
    (nm : String) (r : Bool) (ps : List (String × ParamValue))
    (h1 : chk t1 db = (r, none, db.append t1 nm r ps))
    (h2 : chk t2 (db.append t1 nm r ps)
      = (r, none, (db.append t1 nm r ps).append t2 nm r ps)) :
    RunTwiceAgrees chk db t1 t2 := by
  unfold RunTwiceAgrees
  rw [h1]
  simp only
  rw [h2]
  refine ⟨rfl, mkEntry db.nextId t1 nm r ps, mkEntry (db.nextId + 1) t2 nm r ps,
    ?_, rfl, rfl, rfl, Nat.lt_succ_self _, fun h => h⟩
  simp [DB.append, mkEntry]

/-- C8: rerunning any embedded check with identical inputs against the
unchanged file yields the identical boolean and identical logged
parameters (including `error_count`), adding two log records with
increasing id and, for a non-decreasing clock, non-decreasing
timestamps. -/
theorem claim_C8_identical_reruns
    (fs : FS) (db : DB) (t1 t2 : Nat) (p rp c : String) (t rt : Table)
    (cells : List Cell) (mn mx : Rat) (vals bl keys : List String) (n m : Nat)
    (hfs : fs p = .table t) (hcol : projectColumn t c = some cells)
    (hrp : fs rp = .table rt)
    (hn : betweenErrorCount mn mx cells = some n)
    (hm : refErrorCount t rt keys = some m)
    (hdb : db.failing = false) :
    RunTwiceAgrees (fun now db2 => IsColumnUnique fs now db2 p c) db t1 t2
    ∧ RunTwiceAgrees (fun now db2 => IsColumnNotNull fs now db2 p c) db t1 t2
    ∧ RunTwiceAgrees (fun now db2 => IsColumnEnum fs now db2 p c vals) db t1 t2
    ∧ RunTwiceAgrees (fun now db2 => AreDistinctValuesInSet fs now db2 p c vals) db t1 t2
    ∧ RunTwiceAgrees (fun now db2 => IsColumnNotInSet fs now db2 p c bl) db t1 t2
    ∧ RunTwiceAgrees (fun now db2 => IsColumnInData fs now db2 p c) db t1 t2
    ∧ RunTwiceAgrees (fun now db2 => IsColumnBetween fs now db2 p c mn mx) db t1 t2
    ∧ RunTwiceAgrees
        (fun now db2 => AreTablesReferentialIntegral fs now db2 p rp keys) db t1 t2 := by
  refine ⟨?_, ?_, ?_, ?_, ?_, ?_, ?_, ?_⟩
  · exact runTwice_of_append _ db t1 t2 _ _ _
      (IsColumnUnique_run hfs hcol hdb t1)
      (IsColumnUnique_run hfs hcol (by rw [DB.append_failing]; exact hdb) t2)
  · exact runTwice_of_append _ db t1 t2 _ _ _
      (IsColumnNotNull_run hfs hcol hdb t1)
      (IsColumnNotNull_run hfs hcol (by rw [DB.append_failing]; exact hdb) t2)
  · exact runTwice_of_append _ db t1 t2 _ _ _
      (IsColumnEnum_run hfs hcol hdb t1 vals)
      (IsColumnEnum_run hfs hcol (by rw [DB.append_failing]; exact hdb) t2 vals)
  · exact runTwice_of_append _ db t1 t2 _ _ _
      (AreDistinctValuesInSet_run hfs hcol hdb t1 vals)
      (AreDistinctValuesInSet_run hfs hcol (by rw [DB.append_failing]; exact hdb) t2 vals)
  · exact runTwice_of_append _ db t1 t2 _ _ _
      (IsColumnNotInSet_run hfs hcol hdb t1 bl)
      (IsColumnNotInSet_run hfs hcol (by rw [DB.append_failing]; exact hdb) t2 bl)
  · exact runTwice_of_append _ db t1 t2 _ _ _
      (IsColumnInData_run hfs hdb t1)
      (IsColumnInData_run hfs (by rw [DB.append_failing]; exact hdb) t2)
  · exact runTwice_of_append _ db t1 t2 _ _ _
      (IsColumnBetween_run hfs hcol hn hdb t1)
      (IsColumnBetween_run hfs hcol hn (by rw [DB.append_failing]; exact hdb) t2)
  · exact runTwice_of_append _ db t1 t2 _ _ _
      (AreTablesReferentialIntegral_run hfs hrp hm hdb t1)
      (AreTablesReferentialIntegral_run hfs hrp hm (by rw [DB.append_failing]; exact hdb) t2)

/-- Instantiates C8: rerunning the unique check at clocks 1 and 2 on the
same file agrees in boolean and logged parameters. -/
theorem claim_C8_identical_reruns_witness :
    RunTwiceAgrees (fun now db2 => IsColumnUnique fsMain now db2 "orders.csv"
      "user_id") db0 1 2 := by
  have h := claim_C8_identical_reruns fsMain db0 1 2 "orders.csv" "users.csv"
    "user_id" tableOrders tableUsers [none] 0 1 ["x"] ["x"] ["user_id"] 0 1
    (by decide) (by decide) (by decide) (by decide) (by decide) rfl
  exact h.1
